import Mathlib

/-!
Shallow embedding of the pin-extraction scripts `add-pin.py` and
`assign-regions.py` (repository jsa3qy/sleepy-alaska).

Modelling conventions:
* Python floats are modelled as exact rationals (ℚ); `float(...)` applied to a
  decimal literal yields the literal's exact value.
* Strings are processed as `List Char`; the specific regular expressions used by
  the scripts are implemented as explicit left-to-right scanners.  Every regex in
  the source has the property that each greedy repetition is over a character
  class disjoint from the character that must follow it, so greedy matching with
  no backtracking is exact, and `re.search` is leftmost-match.
* Network fetches and interactive input are external effects; they enter the
  embedding as explicit arguments (`Option String` for a fetched body, a record
  of operator-supplied values for manual entry).  `sys.exit` / an uncaught
  Python exception is modelled as a `none` result.
* `round(x, 1)` is modelled as round-half-up on ℚ at one decimal; Python's
  float rounding agrees on all inputs reachable here (ties of the exact product
  with the odd, 5-free constant 621371 are not representable halves of tenths
  for decimal-literal inputs, and float ties are perturbed anyway).
* Percent-decoding (`urllib.parse.unquote_plus`) is modelled byte-per-char,
  which agrees with Python on ASCII payloads.
-/

namespace SleepyAK

/-! ### Generic character and scanning helpers -/

def natOfDigits (l : List Char) : ℕ :=
  l.foldl (fun n c => 10 * n + (c.toNat - 48)) 0

/-- Python `\s` (ASCII whitespace as used by `re` on these inputs). -/
def pyIsSpace (c : Char) : Bool :=
  c == ' ' || c == '\t' || c == '\n' || c == '\r' || c == '\x0b' || c == '\x0c'

/-- Strip leading and trailing whitespace, Python `str.strip()`. -/
def pyStrip (l : List Char) : List Char :=
  ((l.dropWhile pyIsSpace).reverse.dropWhile pyIsSpace).reverse

/-- Python `str.lower()` restricted to ASCII. -/
def pyLower (l : List Char) : List Char := l.map Char.toLower

/-- Python `str.title()`: a letter directly after a letter is lowercased, any
other letter is uppercased (ASCII approximation of "cased"). -/
def pyTitle : List Char → Bool → List Char
  | [], _ => []
  | c :: cs, prev =>
    if c.isAlpha then (if prev then c.toLower else c.toUpper) :: pyTitle cs true
    else c :: pyTitle cs false

/-- Match a literal prefix, returning the rest of the input. -/
def dropLit : List Char → List Char → Option (List Char)
  | [], s => some s
  | _ :: _, [] => none
  | c :: cs, d :: ds => if c == d then dropLit cs ds else none

/-- Executable contiguous-substring test (Python `x in s`). -/
def containsInfix (pat : List Char) : List Char → Bool
  | [] => pat.isEmpty
  | c :: cs => (dropLit pat (c :: cs)).isSome || containsInfix pat cs

/-- Greedy nonempty run of characters satisfying `p` (a `+`-repetition). -/
def span1 (p : Char → Bool) (l : List Char) : Option (List Char × List Char) :=
  match l.span p with
  | (a, b) => if a.isEmpty then none else some (a, b)

/-- Leftmost-match search: try the at-position matcher at every suffix. -/
def reSearch {α : Type} (m : List Char → Option α) : List Char → Option α
  | [] => none
  | c :: cs =>
    match m (c :: cs) with
    | some r => some r
    | none => reSearch m cs

/-- Rightmost-match search (models a tag scanner whose later matches overwrite
earlier ones). -/
def reSearchLastAux {α : Type} (m : List Char → Option α) :
    List Char → Option α → Option α
  | [], acc => acc
  | c :: cs, acc =>
    reSearchLastAux m cs (match m (c :: cs) with | some r => some r | none => acc)

def reSearchLast {α : Type} (m : List Char → Option α) (l : List Char) : Option α :=
  reSearchLastAux m l none

/-- Exact decimal value `±mant / 10^exp`, the result of parsing a decimal
literal.  Kept in this form (plain `Bool`/`ℕ` data) so concrete runs of the
scanners evaluate by `decide`; `Dec.toRat` is the exact rational it denotes,
which is also the exact value whose nearest double Python's `float()` returns. -/
structure Dec where
  neg : Bool
  mant : ℕ
  exp : ℕ
deriving DecidableEq

def Dec.toRat (d : Dec) : ℚ :=
  (if d.neg then -1 else 1) * (d.mant : ℚ) / (10 : ℚ) ^ d.exp

/-- Match `\d+\.\d+` at the head, returning the exact decimal matched. -/
def matchDecAt (l : List Char) : Option (Dec × List Char) :=
  match span1 Char.isDigit l with
  | none => none
  | some (ds, r1) =>
    match r1 with
    | '.' :: r2 =>
      match span1 Char.isDigit r2 with
      | none => none
      | some (fs, r3) =>
        some (⟨false, natOfDigits ds * 10 ^ fs.length + natOfDigits fs, fs.length⟩, r3)
    | _ => none

/-- Match `-?\d+\.\d+` at the head. -/
def matchSDecAt (l : List Char) : Option (Dec × List Char) :=
  match l with
  | '-' :: rest => (matchDecAt rest).map (fun p => (⟨true, p.1.mant, p.1.exp⟩, p.2))
  | _ => matchDecAt l

/-- Matcher for a regex of shape `pre (-?\d+\.\d+) mid (-?\d+\.\d+) post`. -/
def pairPat (pre mid post : List Char) (l : List Char) : Option (Dec × Dec) :=
  (dropLit pre l).bind fun r1 =>
  (matchSDecAt r1).bind fun p =>
  (dropLit mid p.2).bind fun r2 =>
  (matchSDecAt r2).bind fun q =>
  (dropLit post q.2).map fun _ => (p.1, q.1)

/-- Python `float(...)` on text drawn from the classes `[0-9.]` / `[0-9.-]`:
an optional leading minus, then digits with at most one dot and at least one
digit; anything else raises (`none`). -/
def pyFloatMag (s : List Char) : Option Dec :=
  match s.span Char.isDigit with
  | (ds, r1) =>
    match r1 with
    | [] => if ds.isEmpty then none else some ⟨false, natOfDigits ds, 0⟩
    | '.' :: r2 =>
      match r2.span Char.isDigit with
      | (fs, r3) =>
        if r3.isEmpty then
          if ds.isEmpty && fs.isEmpty then none
          else some ⟨false, natOfDigits ds * 10 ^ fs.length + natOfDigits fs, fs.length⟩
        else none
    | _ => none

def pyFloat? (s : List Char) : Option Dec :=
  match s with
  | '-' :: rest => (pyFloatMag rest).map (fun d => ⟨true, d.mant, d.exp⟩)
  | _ => pyFloatMag s

/-! ### URL parsing primitives (urllib.parse, as used by add-pin.py) -/

def hexVal? (c : Char) : Option ℕ :=
  if c.isDigit then some (c.toNat - 48)
  else if 'a' ≤ c && c ≤ 'f' then some (c.toNat - 87)
  else if 'A' ≤ c && c ≤ 'F' then some (c.toNat - 55)
  else none

/-- `urllib.parse.unquote_plus`: `+` becomes a space, `%hh` becomes the byte
`hh` (modelled byte-per-char), malformed escapes pass through untouched. -/
def unquoteChars : List Char → List Char
  | [] => []
  | c :: cs =>
    if c == '%' then
      match cs with
      | a :: b :: rest =>
        match hexVal? a, hexVal? b with
        | some x, some y => Char.ofNat (16 * x + y) :: unquoteChars rest
        | _, _ => '%' :: unquoteChars (a :: b :: rest)
      | [a] => '%' :: unquoteChars [a]
      | [] => ['%']
    else if c == '+' then ' ' :: unquoteChars cs
    else c :: unquoteChars cs

def unquote_plus (s : String) : String := ⟨unquoteChars s.toList⟩

/-- The query component of a URL as `urllib.parse.urlparse` extracts it:
everything after the first `?` of the part before the first `#`. -/
def afterQuestion : List Char → List Char
  | [] => []
  | c :: cs => if c == '?' then cs else afterQuestion cs

def queryOf (url : String) : String :=
  ⟨afterQuestion (url.toList.takeWhile (fun c => c != '#'))⟩

/-- Python `str.split(sep)` for a single-character separator, keeping empties. -/
def splitOnChar (sep : Char) : List Char → List (List Char)
  | [] => [[]]
  | c :: cs =>
    match splitOnChar sep cs with
    | [] => [[c]]
    | h :: t => if c == sep then [] :: h :: t else (c :: h) :: t

/-- Split a query field at its first `=`; `none` when there is no `=`. -/
def splitEq1 (seg : List Char) : Option (List Char × List Char) :=
  match seg.span (fun c => c != '=') with
  | (k, r) =>
    match r with
    | [] => none
    | _ :: v => some (k, v)

/-- `urllib.parse.parse_qs` flattened to an ordered pair list: fields without
`=` or with an empty value are dropped, keys and values are percent-decoded.
`params[k][0]` of the Python dict is the first pair with key `k` here. -/
def parse_qsl (qs : String) : List (String × String) :=
  (splitOnChar '&' qs.toList).filterMap fun seg =>
    match splitEq1 seg with
    | none => none
    | some (k, v) =>
      if v.isEmpty then none
      else some ((⟨unquoteChars k⟩ : String), (⟨unquoteChars v⟩ : String))

def getParam (ps : List (String × String)) (k : String) : Option String :=
  (ps.find? (fun p => p.1 == k)).map (fun p => p.2)

/-! ### The candidate record handed to persistence -/

/-- The dict each `fetch_*_data` function returns.  `coordinates` is kept as an
optional list (the Python value is `None` or a two-element list `[lat, lng]`),
so the both-axes-or-none invariant is a theorem, not a typing artifact. -/
structure Pin where
  coordinates : Option (List ℚ)
  name : Option String
  description : Option String
  url : String
  category : Option String
  distance : Option ℚ
  elevation_gain : Option ℤ
deriving DecidableEq

/-- Python truthiness of an optional string (`None` and `""` are falsy). -/
def pyFalsyS : Option String → Bool
  | none => true
  | some s => s.isEmpty

/-- The candidate coordinate invariant: a complete two-element pair or nothing. -/
def coordsBothOrNone (o : Option (List ℚ)) : Prop :=
  o = none ∨ ∃ a b : ℚ, o = some [a, b]

/-! ### add-pin.py : fetch_apple_maps_data (lines 145-202) -/

/-- Matcher for `re.match(r'(-?\d+\.\d+),(-?\d+\.\d+)', ll)` (anchored). -/
def matchLLPair (l : List Char) : Option (Dec × Dec) :=
  pairPat [] [','] [] l

/-- Matcher for `"latitude":(-?\d+\.\d+),"longitude":(-?\d+\.\d+)`. -/
def appleHtmlPairAt (l : List Char) : Option (Dec × Dec) :=
  pairPat "\"latitude\":".toList ",\"longitude\":".toList [] l

/-- The coordinate logic of `fetch_apple_maps_data`: the `ll` query parameter,
then (only when that yielded nothing) the fetched page body; a failed fetch
(`fetched = none`, exception caught and logged) leaves coordinates unset. -/
def apple_coordinates (url : String) (fetched : Option String) :
    Option (List ℚ) :=
  let coords0 : Option (List ℚ) :=
    match getParam (parse_qsl (queryOf url)) "ll" with
    | some ll =>
      match matchLLPair ll.toList with
      | some p => some [p.1.toRat, p.2.toRat]
      | none => none
    | none => none
  match coords0 with
  | some c => some c
  | none =>
    match fetched with
    | none => none
    | some html =>
      match reSearch appleHtmlPairAt html.toList with
      | some p => some [p.1.toRat, p.2.toRat]
      | none => none

/-- `fetch_apple_maps_data(url)`.  The supplementary page fetch is an external
effect, passed in as `fetched`; it is consulted only when the query string
yielded no coordinates, exactly as in the source. -/
def fetch_apple_maps_data (url : String) (fetched : Option String) : Pin :=
  let params := parse_qsl (queryOf url)
  let name0 : Option String := (getParam params "q").map unquote_plus
  let desc0 : Option String := name0
  let name1 : Option String :=
    match getParam params "address" with
    | some av => if pyFalsyS name0 then some (unquote_plus av) else name0
    | none => name0
  let desc1 : Option String :=
    match getParam params "address" with
    | some av => if pyFalsyS desc0 then some (unquote_plus av) else desc0
    | none => desc0
  { coordinates := apple_coordinates url fetched, name := name1,
    description := desc1, url := url, category := none, distance := none,
    elevation_gain := none }

/-! ### add-pin.py : fetch_alltrails_manual (lines 205-240) -/

/-- The operator-supplied values of the interactive manual-entry path.  The
source loops until latitude/longitude parse as floats, so they arrive here as
numbers; the other inputs arrive `strip()`ped, as `input(...).strip()` leaves
them. -/
structure ManualInput where
  name : String
  lat : ℚ
  lng : ℚ
  distance : String
  elevation : String

/-- Python `" • ".join(parts)`. -/
def joinBullets : List String → String
  | [] => ""
  | [s] => s
  | s :: rest => s ++ " • " ++ joinBullets rest

/-- The description built by `fetch_alltrails_manual` from the distance and
elevation strings (empty string = operator skipped the field). -/
def manualDescription (d e : String) : String :=
  let parts := (if d.isEmpty then [] else [d ++ " mi"])
      ++ (if e.isEmpty then [] else ["+" ++ e ++ " ft elevation"])
  if parts.isEmpty then "Hiking trail" else joinBullets parts

def fetch_alltrails_manual (m : ManualInput) (url : String) : Pin :=
  { coordinates := some [m.lat, m.lng], name := some m.name,
    description := some (manualDescription m.distance m.elevation),
    url := url, category := some "Hike", distance := none,
    elevation_gain := none }

/-! ### add-pin.py : fetch_alltrails_data (lines 243-398) -/

def isNumDot (c : Char) : Bool := c.isDigit || c == '.'

def isNumDotDash (c : Char) : Bool := c.isDigit || c == '.' || c == '-'

/-- Matcher for `<meta property="og:title" content="([^"]+)"`. -/
def mOgTitleAt (l : List Char) : Option (List Char) :=
  (dropLit "<meta property=\"og:title\" content=\"".toList l).bind fun r1 =>
  (span1 (fun c => c != '"') r1).bind fun p =>
  (dropLit ['"'] p.2).map fun _ => p.1

/-- Matcher for `<title>([^<]+)</title>`. -/
def mTitleTagAt (l : List Char) : Option (List Char) :=
  (dropLit "<title>".toList l).bind fun p1 =>
  (span1 (fun c => c != '<') p1).bind fun p =>
  (dropLit "</title>".toList p.2).map fun _ => p.1

/-- Matcher for `data-name="([^"]+)"`. -/
def mDataNameAt (l : List Char) : Option (List Char) :=
  (dropLit "data-name=\"".toList l).bind fun r1 =>
  (span1 (fun c => c != '"') r1).bind fun p =>
  (dropLit ['"'] p.2).map fun _ => p.1

def searchOgTitle (h : List Char) : Option String :=
  (reSearch mOgTitleAt h).map (fun l => (⟨l⟩ : String))

def searchTitleTag (h : List Char) : Option String :=
  (reSearch mTitleTagAt h).map (fun l => (⟨l⟩ : String))

def searchDataName (h : List Char) : Option String :=
  (reSearch mDataNameAt h).map (fun l => (⟨l⟩ : String))

/-- The branding-suffix trim `re.sub(r'\s*[-|].*$', '', name).strip()`: the
single match of that pattern, when it exists, runs from the whitespace run
preceding the first `-`/`|` of the final line to the end (`.` cannot cross a
newline and `$` only matches at the end or before a trailing newline), so the
composition with `strip()` keeps the stripped prefix before that separator. -/
def cleanTitle (s : String) : String :=
  let l := s.toList
  let core := match l.reverse with
    | '\n' :: r => r.reverse
    | _ => l
  let rcore := core.reverse
  let lastline := (rcore.takeWhile (fun c => c != '\n')).reverse
  let pre := (rcore.dropWhile (fun c => c != '\n')).reverse
  match lastline.findIdx? (fun c => c == '-' || c == '|') with
  | some j => ⟨pyStrip (pre ++ lastline.take j)⟩
  | none => ⟨pyStrip l⟩

/-- Last-resort name: `url.rstrip('/').split('/')[-1].replace('-',' ').title()`. -/
def urlDerivedName (url : String) : String :=
  let l := (url.toList.reverse.dropWhile (fun c => c == '/')).reverse
  let seg := (l.reverse.takeWhile (fun c => c != '/')).reverse
  ⟨pyTitle (seg.map (fun c => if c == '-' then ' ' else c)) false⟩

/-- The name fallback chain of `fetch_alltrails_data` (lines 280-304):
og:title (suffix-trimmed), then the title tag (suffix-trimmed) when the name is
still falsy, then `data-name` and the URL segment when the name is falsy or
literally "AllTrails". -/
def alltrails_name (html url : String) : String :=
  let h := html.toList
  let n0 : Option String := (searchOgTitle h).map cleanTitle
  let n1 : Option String :=
    if pyFalsyS n0 then
      match searchTitleTag h with
      | some t => some (cleanTitle t)
      | none => n0
    else n0
  let n2 : Option String :=
    if pyFalsyS n1 = true ∨ n1 = some "AllTrails" then
      match searchDataName h with
      | some s => some s
      | none => n1
    else n1
  match n2 with
  | some s =>
    if s.isEmpty = true ∨ s = "AllTrails" then urlDerivedName url else s
  | none => urlDerivedName url

/-- Matcher for `"lat":([0-9.-]+),"lng":([0-9.-]+)`, raw captures. -/
def mLatLngAt (l : List Char) : Option (List Char × List Char) :=
  (dropLit "\"lat\":".toList l).bind fun r1 =>
  (span1 isNumDotDash r1).bind fun p =>
  (dropLit ",\"lng\":".toList p.2).bind fun r2 =>
  (span1 isNumDotDash r2).map fun q => (p.1, q.1)

/-- Matcher for `"latitude":([0-9.-]+),"longitude":([0-9.-]+)`. -/
def mLatitudeAt (l : List Char) : Option (List Char × List Char) :=
  (dropLit "\"latitude\":".toList l).bind fun r1 =>
  (span1 isNumDotDash r1).bind fun p =>
  (dropLit ",\"longitude\":".toList p.2).bind fun r2 =>
  (span1 isNumDotDash r2).map fun q => (p.1, q.1)

/-- Matcher for `data-lat="([0-9.-]+)"\s+data-lng="([0-9.-]+)"`. -/
def mDataLatAt (l : List Char) : Option (List Char × List Char) :=
  (dropLit "data-lat=\"".toList l).bind fun r1 =>
  (span1 isNumDotDash r1).bind fun p =>
  (dropLit ['"'] p.2).bind fun r2 =>
  (span1 pyIsSpace r2).bind fun w =>
  (dropLit "data-lng=\"".toList w.2).bind fun r3 =>
  (span1 isNumDotDash r3).bind fun q =>
  (dropLit ['"'] q.2).map fun _ => (p.1, q.1)

/-- Matcher for `center:\s*\[([0-9.-]+),\s*([0-9.-]+)\]`. -/
def mCenterArrAt (l : List Char) : Option (List Char × List Char) :=
  (dropLit "center:".toList l).bind fun r1 =>
  (dropLit ['['] (r1.dropWhile pyIsSpace)).bind fun r2 =>
  (span1 isNumDotDash r2).bind fun p =>
  (dropLit [','] p.2).bind fun r3 =>
  (span1 isNumDotDash (r3.dropWhile pyIsSpace)).bind fun q =>
  (dropLit [']'] q.2).map fun _ => (p.1, q.1)

/-- The four structural coordinate patterns, tried in source order; within
each pattern the leftmost occurrence wins. -/
def alltrails_raw_coords (h : List Char) : Option (List Char × List Char) :=
  match reSearch mLatLngAt h with
  | some r => some r
  | none =>
    match reSearch mLatitudeAt h with
    | some r => some r
    | none =>
      match reSearch mDataLatAt h with
      | some r => some r
      | none => reSearch mCenterArrAt h

/-- Coordinates from the structural patterns.  Outer `none` models an uncaught
`ValueError` from `float()` on a malformed capture (which crashes the
extractor); inner value is the `coordinates` variable. -/
def alltrails_coords_step (h : List Char) : Option (Option (List ℚ)) :=
  match alltrails_raw_coords h with
  | none => some none
  | some (c1, c2) =>
    match pyFloat? c1, pyFloat? c2 with
    | some a, some b => some (some [a.toRat, b.toRat])
    | _, _ => none

/-- A parsed JSON value, for the JSON-LD structured-data fallback.  The
`json.loads` call itself is an external library routine; its result (or
`none` for a parse error) is supplied to the extractor as a function of the
captured script text. -/
inductive Json where
  | null
  | bool (b : Bool)
  | num (q : ℚ)
  | str (s : String)
  | arr (xs : List Json)
  | obj (fields : List (String × Json))

/-- Python truthiness of a JSON value. -/
def Json.truthy : Json → Bool
  | .null => false
  | .bool b => b
  | .num q => if q = 0 then false else true
  | .str s => !s.isEmpty
  | .arr xs => !xs.isEmpty
  | .obj fs => !fs.isEmpty

/-- Python `float(x)` on a JSON value (`none` models a raised error). -/
def Json.asFloat : Json → Option ℚ
  | .num q => some q
  | .str s => (pyFloat? s.toList).map Dec.toRat
  | .bool b => some (if b then 1 else 0)
  | _ => none

def jget (fs : List (String × Json)) (k : String) : Option Json :=
  (fs.find? (fun p => p.1 == k)).map (fun p => p.2)

/-- Matcher for `<script type="application/ld\+json">([^<]+)</script>`. -/
def mJsonLdAt (l : List Char) : Option (List Char) :=
  (dropLit "<script type=\"application/ld+json\">".toList l).bind fun r1 =>
  (span1 (fun c => c != '<') r1).bind fun p =>
  (dropLit "</script>".toList p.2).map fun _ => p.1

/-- Lines 326-339: unwrap a list to its first element, require a dict with a
`geo` dict carrying truthy latitude/longitude, convert both with `float`.
Every exception in that block is caught (`except: pass`), so any failure just
leaves coordinates unset. -/
def jsonld_coords : Option Json → Option (List ℚ)
  | none => none
  | some d0 =>
    match (match d0 with
           | .arr [] => none
           | .arr (x :: _) => some x
           | x => some x) with
    | some (.obj fields) =>
      match jget fields "geo" with
      | some (.obj g) =>
        match jget g "latitude", jget g "longitude" with
        | some lat, some lng =>
          if lat.truthy && lng.truthy then
            match lat.asFloat, lng.asFloat with
            | some a, some b => some [a, b]
            | _, _ => none
          else none
        | _, _ => none
      | _ => none
    | _ => none

/-- The full coordinate extraction: structural patterns, then the JSON-LD
fallback when they found nothing. -/
def alltrails_coordinates (h : List Char) (jp : String → Option Json) :
    Option (Option (List ℚ)) :=
  match alltrails_coords_step h with
  | none => none
  | some (some c) => some (some c)
  | some none =>
    match reSearch mJsonLdAt h with
    | none => some none
    | some txt => some (jsonld_coords (jp ⟨txt⟩))

/-- Matcher for `"length":([0-9.]+)`. -/
def mLengthAt (l : List Char) : Option (List Char) :=
  (dropLit "\"length\":".toList l).bind fun r1 =>
  (span1 isNumDot r1).map fun p => p.1

/-- Matcher for `data-length="([0-9.]+)"`. -/
def mDataLengthAt (l : List Char) : Option (List Char) :=
  (dropLit "data-length=\"".toList l).bind fun r1 =>
  (span1 isNumDot r1).bind fun p =>
  (dropLit ['"'] p.2).map fun _ => p.1

def searchDistanceRaw (h : List Char) : Option (List Char) :=
  match reSearch mLengthAt h with
  | some r => some r
  | none => reSearch mDataLengthAt h

/-- Matcher for `"elevationGain":([0-9.]+)`. -/
def mElevGainAt (l : List Char) : Option (List Char) :=
  (dropLit "\"elevationGain\":".toList l).bind fun r1 =>
  (span1 isNumDot r1).map fun p => p.1

/-- Matcher for `data-elevation="([0-9.]+)"`. -/
def mDataElevAt (l : List Char) : Option (List Char) :=
  (dropLit "data-elevation=\"".toList l).bind fun r1 =>
  (span1 isNumDot r1).bind fun p =>
  (dropLit ['"'] p.2).map fun _ => p.1

def searchElevRaw (h : List Char) : Option (List Char) :=
  match reSearch mElevGainAt h with
  | some r => some r
  | none => reSearch mDataElevAt h

/-- Format of `f"{v} mi"` for `v = round(miles, 1)`: `t` is the value in
tenths (nonnegative here, since the captures carry no minus sign). -/
def fmtTenths (t : ℤ) : String :=
  toString (t / 10) ++ "." ++ toString (t % 10)

/-- Lines 352-355: `miles = meters * 0.000621371; value = round(miles, 1)`.
`round(x, 1)` is round-half-up at one decimal here; Python's banker's rounding
only differs on exact halves, which the odd, 5-free factor 621371 makes
unreachable for decimal inputs. -/
def distanceOfMeters (m : ℚ) : ℚ × String :=
  (((round (m * (621371 / 1000000000) * 10) : ℤ) : ℚ) / 10,
   fmtTenths (round (m * (621371 / 1000000000) * 10)) ++ " mi")

/-- Lines 369-372: `feet = meters * 3.28084; value = int(feet)`; `int()`
truncates, which is the floor for these nonnegative values. -/
def elevationOfMeters (m : ℚ) : ℤ × String :=
  (⌊m * (328084 / 100000)⌋, toString (⌊m * (328084 / 100000)⌋ : ℤ) ++ " ft")

/-- Distance extraction (lines 341-356).  Outer `none` models a `float()`
crash; inner value carries `(distance_value, distance)`. -/
def distResult (h : List Char) : Option (Option (ℚ × String)) :=
  match searchDistanceRaw h with
  | none => some none
  | some raw =>
    match pyFloat? raw with
    | none => none
    | some d => some (some (distanceOfMeters d.toRat))

/-- Elevation extraction (lines 358-372). -/
def elevResult (h : List Char) : Option (Option (ℤ × String)) :=
  match searchElevRaw h with
  | none => some none
  | some raw =>
    match pyFloat? raw with
    | none => none
    | some d => some (some (elevationOfMeters d.toRat))

/-- `fetch_alltrails_data(url)`.  The widget-URL fetch is an input (`none`
models the caught fetch failure); `jp` stands for `json.loads` on the captured
JSON-LD text; `m` is the operator input consumed by the manual path.  The
overall `none` models `sys.exit(1)` (non-interactive fetch failure) or an
uncaught `float()` exception. -/
def fetch_alltrails_data (nonInteractive : Bool) (url : String)
    (fetched : Option String) (jp : String → Option Json) (m : ManualInput) :
    Option Pin :=
  match fetched with
  | none =>
    if nonInteractive then none else some (fetch_alltrails_manual m url)
  | some html =>
    let h := html.toList
    let name := alltrails_name html url
    match alltrails_coordinates h jp with
    | none => none
    | some coords =>
      match distResult h with
      | none => none
      | some dist? =>
        match elevResult h with
        | none => none
        | some elev? =>
          let parts :=
            (match dist? with | some ds => [ds.2] | none => [])
            ++ (match elev? with
                | some es => ["+" ++ es.2 ++ " elevation"]
                | none => [])
          let description :=
            if parts.isEmpty then "Hiking trail" else joinBullets parts
          some { coordinates := coords, name := some name,
                 description := some description, url := url,
                 category := some "Hike",
                 distance := dist?.map (fun ds => ds.1),
                 elevation_gain := elev?.map (fun es => es.1) }

/-! ### add-pin.py : fetch_google_maps_data (lines 401-454) -/

/-- Priority 1: `!3d(-?\d+\.\d+)!4d(-?\d+\.\d+)` on the resolved URL. -/
def gPlaceAt (l : List Char) : Option (Dec × Dec) :=
  pairPat "!3d".toList "!4d".toList [] l

/-- Priority 2: `@(-?\d+\.\d+),(-?\d+\.\d+)` (map viewport center). -/
def gViewportAt (l : List Char) : Option (Dec × Dec) :=
  pairPat ['@'] [','] [] l

/-- Priority 3: `[?&]q=(-?\d+\.\d+),(-?\d+\.\d+)` in the resolved URL. -/
def gQueryAt (l : List Char) : Option (Dec × Dec) :=
  match l with
  | c :: rest =>
    if c == '?' || c == '&' then pairPat "q=".toList [','] [] rest else none
  | [] => none

/-- Priority 4: `"center":\{"lat":(-?\d+\.\d+),"lng":(-?\d+\.\d+)}` in the body. -/
def gCenterAt (l : List Char) : Option (Dec × Dec) :=
  pairPat "\"center\":\x7b\"lat\":".toList ",\"lng\":".toList ['\x7d'] l

/-- The coordinate selection of `fetch_google_maps_data`, applied to the
redirect-resolved URL and the fetched body. -/
def google_coordinates (finalUrl html : List Char) : Option (List ℚ) :=
  match reSearch gPlaceAt finalUrl with
  | some p => some [p.1.toRat, p.2.toRat]
  | none =>
    match
      (match reSearch gViewportAt finalUrl with
       | some p => some p
       | none =>
         match reSearch gQueryAt finalUrl with
         | some p => some p
         | none => reSearch gCenterAt html) with
    | some p => some [p.1.toRat, p.2.toRat]
    | none => none

/-- Matcher for the `og:title` / `og:description` meta tags.  The source walks
the document with an `HTMLParser` whose handler overwrites its fields on every
matching tag, so the last occurrence wins; attributes are modelled in the
serialized order the site emits. -/
def metaContentAt (prop : List Char) (l : List Char) : Option String :=
  (dropLit ("<meta property=\"".toList ++ prop ++ "\" content=\"".toList) l).bind
    fun r1 =>
  (span1 (fun c => c != '"') r1).map fun p => (⟨pyStrip p.1⟩ : String)

def ogLast (prop : List Char) (html : List Char) : Option String :=
  reSearchLast (metaContentAt prop) html

/-- The result of `fetch_google_maps_data` once the page fetch succeeded,
given the redirect-resolved URL and the body. -/
def google_result (url finalUrl html : String) : Pin :=
  { coordinates := google_coordinates finalUrl.toList html.toList,
    name := ogLast "og:title".toList html.toList,
    description := ogLast "og:description".toList html.toList,
    url := if containsInfix "://".toList finalUrl.toList then finalUrl else url,
    category := none, distance := none, elevation_gain := none }

/-- `fetch_google_maps_data(url)`: the fetch is an input (`none` models a
network error, which the source catches, logs and turns into `return None`). -/
def fetch_google_maps_data (url : String) (fetch : Option (String × String)) :
    Option Pin :=
  match fetch with
  | none => none
  | some fh => some (google_result url fh.1 fh.2)

/-- The google branch of `process_single_url` (lines 487-510): a `None` result
or missing coordinates is `sys.exit(1)`, modelled as `Except.error` with the
message printed by the script. -/
def process_google (url : String) (fetch : Option (String × String)) :
    Except String Pin :=
  match fetch_google_maps_data url fetch with
  | none => Except.error "Failed to fetch data from URL"
  | some d =>
    match d.coordinates with
    | none => Except.error "Could not extract coordinates from URL"
    | some _ => Except.ok d

/-! ### assign-regions.py : determine_region (lines 55-72) -/

/-- `determine_region(lat, lng)` from `assign-regions.py`. -/
def determine_region (lat lng : ℚ) : String :=
  if lat > 6145 / 100 then "North of Anchorage"
  else if lat > 607 / 10 then "Anchorage Area"
  else if lng > -1503 / 10 then "Seward Area"
  else "Kenai Peninsula"

/-! ### add-pin.py : infer_category (lines 457-478) -/

/-- The fixed keyword table of `infer_category`. -/
def categoryKeywords : List (String × List String) :=
  [("Eat/Drink", ["restaurant", "cafe", "coffee", "bar", "food", "burrito",
                  "pizza", "brewery", "bistro", "diner"]),
   ("Hike", ["trail", "hike", "hiking", "mountain", "summit", "trek"]),
   ("City", ["city", "town", "downtown", "urban"]),
   ("Landmark", ["monument", "historic", "building", "tower", "statue", "memorial"]),
   ("Point of Interest", ["park", "museum", "attraction", "viewpoint", "scenic"])]

def lookupKeywords (c : String) : Option (List String) :=
  (categoryKeywords.find? (fun p => p.1 == c)).map (fun p => p.2)

def keywordHit (text : List Char) (kw : String) : Bool :=
  containsInfix kw.toList text

def inferGo (text : List Char) : List String → Option String
  | [] => none
  | c :: cs =>
    match lookupKeywords c with
    | some kws => if kws.any (keywordHit text) then some c else inferGo text cs
    | none => inferGo text cs

/-- `infer_category(name, description, categories)`; categories are represented
by their `name` fields (the only field the function reads). -/
def infer_category (name description : String) (categories : List String) :
    Option String :=
  inferGo (pyLower (name ++ " " ++ description).toList) categories

/-- The predicate "this category has a keyword table and some keyword of it
occurs in the lowercased name+description text". -/
def categoryMatches (name description : String) (c : String) : Bool :=
  match lookupKeywords c with
  | some kws => kws.any (keywordHit (pyLower (name ++ " " ++ description).toList))
  | none => false

/-! ### Lemmas about decoding and query parsing -/

lemma unquoteChars_cons_ne_nil (c : Char) (cs : List Char) :
    unquoteChars (c :: cs) ≠ [] := by
  rw [unquoteChars.eq_def]
  dsimp only
  split
  · split
    · split <;> simp
    · simp
    · simp
  · split <;> simp

lemma string_mk_ne_empty (l : List Char) (h : l ≠ []) :
    (⟨l⟩ : String) ≠ "" := by
  intro hcon
  have : l = [] := congrArg String.data hcon
  exact h this

lemma unquote_plus_ne_empty (s : String) (h : s ≠ "") : unquote_plus s ≠ "" := by
  obtain ⟨l⟩ := s
  cases l with
  | nil => exact absurd rfl h
  | cons c cs =>
    exact string_mk_ne_empty _ (unquoteChars_cons_ne_nil c cs)

lemma parse_qsl_value_ne_empty (qs k v : String) (h : (k, v) ∈ parse_qsl qs) :
    v ≠ "" := by
  rw [parse_qsl, List.mem_filterMap] at h
  obtain ⟨seg, -, hseg⟩ := h
  cases hsp : splitEq1 seg with
  | none => rw [hsp] at hseg; exact absurd hseg (by simp)
  | some kv =>
    obtain ⟨k0, v0⟩ := kv
    rw [hsp] at hseg
    dsimp only at hseg
    split at hseg
    · exact absurd hseg (by simp)
    · rename_i hv0
      injection hseg with h1
      injection h1 with hk2 hv2
      rw [← hv2]
      cases v0 with
      | nil => exact absurd rfl hv0
      | cons c cs =>
        exact string_mk_ne_empty _ (unquoteChars_cons_ne_nil c cs)

lemma getParam_mem (ps : List (String × String)) (k v : String)
    (h : getParam ps k = some v) : (k, v) ∈ ps := by
  rw [getParam] at h
  cases hf : ps.find? (fun p => p.1 == k) with
  | none => rw [hf] at h; exact absurd h (by simp)
  | some pr =>
    rw [hf] at h
    have hbeq := List.find?_some (p := fun q : String × String => q.1 == k) hf
    have hk : pr.1 = k := eq_of_beq hbeq
    have hv : pr.2 = v := by simpa using h
    have hmem := List.mem_of_find?_eq_some hf
    rw [← hk, ← hv]
    simpa using hmem

/-! ### Theorems -/

lemma inferGo_eq_find (t : List Char) (cats : List String) :
    inferGo t cats
      = cats.find? (fun c =>
          match lookupKeywords c with
          | some kws => kws.any (keywordHit t)
          | none => false) := by
  induction cats with
  | nil => rfl
  | cons c cs ih =>
    cases h : lookupKeywords c with
    | none =>
      simp only [inferGo, List.find?_cons, h]
      exact ih
    | some kws =>
      cases ha : kws.any (keywordHit t) with
      | false =>
        simp only [inferGo, List.find?_cons, h, ha, Bool.false_eq_true, if_false]
        exact ih
      | true =>
        simp only [inferGo, List.find?_cons, h, ha, if_true]

/-- C3: when the serviceC fetch fails in interactive mode, the extractor falls
back to the manual-entry path, returning exactly its candidate: coordinates are
the operator-supplied pair, the category is the fixed "Hike", and the
description joins the supplied distance and elevation with a bullet separator
(or is "Hiking trail" when both are absent). -/
theorem alltrails_fetch_failure_manual (url : String) (jp : String → Option Json)
    (m : ManualInput) :
    fetch_alltrails_data false url none jp m = some (fetch_alltrails_manual m url)
    ∧ (fetch_alltrails_manual m url).coordinates = some [m.lat, m.lng]
    ∧ (fetch_alltrails_manual m url).category = some "Hike"
    ∧ (m.distance.isEmpty = false → m.elevation.isEmpty = false →
        (fetch_alltrails_manual m url).description
          = some (m.distance ++ " mi" ++ " • " ++ ("+" ++ m.elevation ++ " ft elevation")))
    ∧ (m.distance.isEmpty = false → m.elevation.isEmpty = true →
        (fetch_alltrails_manual m url).description = some (m.distance ++ " mi"))
    ∧ (m.distance.isEmpty = true → m.elevation.isEmpty = false →
        (fetch_alltrails_manual m url).description
          = some ("+" ++ m.elevation ++ " ft elevation"))
    ∧ (m.distance.isEmpty = true → m.elevation.isEmpty = true →
        (fetch_alltrails_manual m url).description = some "Hiking trail") := by
  refine ⟨rfl, rfl, rfl, ?_, ?_, ?_, ?_⟩ <;>
    · intro h1 h2
      simp [fetch_alltrails_manual, manualDescription, joinBullets, h1, h2]

/-- Witness for `alltrails_fetch_failure_manual` at a concrete operator input. -/
theorem alltrails_fetch_failure_manual_witness :
    fetch_alltrails_data false "https://www.alltrails.com/trail/us/alaska/flattop"
        none (fun _ => Option.none) ⟨"Flattop", 61, -149, "3.5", "1350"⟩
      = some (fetch_alltrails_manual ⟨"Flattop", 61, -149, "3.5", "1350"⟩
          "https://www.alltrails.com/trail/us/alaska/flattop")
    ∧ (fetch_alltrails_manual ⟨"Flattop", 61, -149, "3.5", "1350"⟩
        "https://www.alltrails.com/trail/us/alaska/flattop").description
      = some ("3.5" ++ " mi" ++ " • " ++ ("+" ++ "1350" ++ " ft elevation")) :=
  ⟨(alltrails_fetch_failure_manual
      "https://www.alltrails.com/trail/us/alaska/flattop" (fun _ => Option.none)
      ⟨"Flattop", 61, -149, "3.5", "1350"⟩).1,
   (alltrails_fetch_failure_manual
      "https://www.alltrails.com/trail/us/alaska/flattop" (fun _ => Option.none)
      ⟨"Flattop", 61, -149, "3.5", "1350"⟩).2.2.2.1 rfl rfl⟩

/-- C5: the serviceC name chain tries the trimmed og:title, then the trimmed
title tag, then `data-name`, then the title-cased final URL segment, the later
steps also replacing a name literally equal to "AllTrails"; and the concrete
branding suffix example trims as specified. -/
theorem alltrails_name_fallback_chain (html url : String) :
    (∀ t, searchOgTitle html.toList = some t →
      (cleanTitle t).isEmpty = false → cleanTitle t ≠ "AllTrails" →
      alltrails_name html url = cleanTitle t)
    ∧ (searchOgTitle html.toList = none →
       ∀ t, searchTitleTag html.toList = some t →
       (cleanTitle t).isEmpty = false → cleanTitle t ≠ "AllTrails" →
       alltrails_name html url = cleanTitle t)
    ∧ (searchOgTitle html.toList = none → searchTitleTag html.toList = none →
       ∀ s, searchDataName html.toList = some s →
       s.isEmpty = false → s ≠ "AllTrails" →
       alltrails_name html url = s)
    ∧ (searchOgTitle html.toList = none → searchTitleTag html.toList = none →
       searchDataName html.toList = none →
       alltrails_name html url = urlDerivedName url)
    ∧ (∀ t, searchOgTitle html.toList = some t → cleanTitle t = "AllTrails" →
       ∀ s, searchDataName html.toList = some s →
       s.isEmpty = false → s ≠ "AllTrails" →
       alltrails_name html url = s)
    ∧ cleanTitle "Flattop Mountain - Alaska | AllTrails" = "Flattop Mountain" := by
  refine ⟨?_, ?_, ?_, ?_, ?_, by decide⟩
  · intro t hog hne hnAll
    have hog2 : searchOgTitle html.data = some t := hog
    simp [alltrails_name, hog2, pyFalsyS, hne, hnAll]
  · intro hog t hti hne hnAll
    have hog2 : searchOgTitle html.data = none := hog
    have hti2 : searchTitleTag html.data = some t := hti
    simp [alltrails_name, hog2, hti2, pyFalsyS, hne, hnAll]
  · intro hog hti s hdn hne hnAll
    have hog2 : searchOgTitle html.data = none := hog
    have hti2 : searchTitleTag html.data = none := hti
    have hdn2 : searchDataName html.data = some s := hdn
    simp [alltrails_name, hog2, hti2, hdn2, pyFalsyS, hne, hnAll]
  · intro hog hti hdn
    have hog2 : searchOgTitle html.data = none := hog
    have hti2 : searchTitleTag html.data = none := hti
    have hdn2 : searchDataName html.data = none := hdn
    simp [alltrails_name, hog2, hti2, hdn2, pyFalsyS]
  · intro t hog hAll s hdn hne hnAll
    have hog2 : searchOgTitle html.data = some t := hog
    have hdn2 : searchDataName html.data = some s := hdn
    simp +decide [alltrails_name, hog2, hdn2, pyFalsyS, hAll, hne, hnAll]

/-- Witness for `alltrails_name_fallback_chain` on a concrete og:title tag. -/
theorem alltrails_name_fallback_chain_witness :
    alltrails_name
        "<meta property=\"og:title\" content=\"Flattop Mountain - Alaska | AllTrails\">"
        "u"
      = cleanTitle "Flattop Mountain - Alaska | AllTrails" :=
  (alltrails_name_fallback_chain
      "<meta property=\"og:title\" content=\"Flattop Mountain - Alaska | AllTrails\">"
      "u").1 "Flattop Mountain - Alaska | AllTrails" (by decide) (by decide) (by decide)

lemma apple_coordinates_inv (url : String) (fetched : Option String) :
    coordsBothOrNone (apple_coordinates url fetched) := by
  rw [apple_coordinates.eq_def]
  dsimp only
  cases hll : getParam (parse_qsl (queryOf url)) "ll" with
  | none =>
    dsimp only
    cases fetched with
    | none => exact Or.inl (by dsimp only)
    | some html =>
      dsimp only
      cases hs : reSearch appleHtmlPairAt html.toList with
      | none => exact Or.inl (by dsimp only)
      | some p => exact Or.inr ⟨p.1.toRat, p.2.toRat, by dsimp only⟩
  | some ll =>
    dsimp only
    cases hm : matchLLPair ll.toList with
    | none =>
      dsimp only
      cases fetched with
      | none => exact Or.inl (by dsimp only)
      | some html =>
        dsimp only
        cases hs : reSearch appleHtmlPairAt html.toList with
        | none => exact Or.inl (by dsimp only)
        | some p => exact Or.inr ⟨p.1.toRat, p.2.toRat, by dsimp only⟩
    | some p => exact Or.inr ⟨p.1.toRat, p.2.toRat, by dsimp only⟩

lemma jsonld_coords_inv (j : Option Json) : coordsBothOrNone (jsonld_coords j) := by
  rw [jsonld_coords.eq_def]
  split
  · exact Or.inl rfl
  · split
    · split
      · split
        · split
          · split
            · exact Or.inr ⟨_, _, rfl⟩
            · exact Or.inl rfl
          · exact Or.inl rfl
        · exact Or.inl rfl
      · exact Or.inl rfl
    · exact Or.inl rfl

lemma alltrails_coords_step_inv (h : List Char) (c : Option (List ℚ))
    (hc : alltrails_coords_step h = some c) : coordsBothOrNone c := by
  rw [alltrails_coords_step.eq_def] at hc
  split at hc
  · exact Or.inl (by injection hc with h1; exact h1.symm)
  · split at hc
    · exact Or.inr ⟨_, _, by injection hc with h1; exact h1.symm⟩
    · exact absurd hc (by simp)

lemma alltrails_coordinates_inv (h : List Char) (jp : String → Option Json)
    (c : Option (List ℚ)) (hc : alltrails_coordinates h jp = some c) :
    coordsBothOrNone c := by
  rw [alltrails_coordinates.eq_def] at hc
  split at hc
  · exact absurd hc (by simp)
  · rename_i hs
    injection hc with h1
    exact h1 ▸ alltrails_coords_step_inv h _ hs
  · split at hc
    · exact Or.inl (by injection hc with h1; exact h1.symm)
    · injection hc with h1
      exact h1 ▸ jsonld_coords_inv _

/-- C9: every candidate produced by one of the three per-service extractors has
either a complete two-element coordinate pair or no coordinates at all — never
a single axis. -/
theorem coordinates_pair_or_absent :
    (∀ url fetched, coordsBothOrNone (fetch_apple_maps_data url fetched).coordinates)
    ∧ (∀ url finalUrl html,
        coordsBothOrNone (google_result url finalUrl html).coordinates)
    ∧ (∀ ni url fetched jp m p, fetch_alltrails_data ni url fetched jp m = some p →
        coordsBothOrNone p.coordinates) := by
  refine ⟨?_, ?_, ?_⟩
  · intro url fetched
    show coordsBothOrNone (apple_coordinates url fetched)
    exact apple_coordinates_inv url fetched
  · intro url finalUrl html
    show coordsBothOrNone (google_coordinates finalUrl.toList html.toList)
    rw [google_coordinates.eq_def]
    split
    · exact Or.inr ⟨_, _, rfl⟩
    · split
      · exact Or.inr ⟨_, _, rfl⟩
      · exact Or.inl rfl
  · intro ni url fetched jp m p hp
    rw [fetch_alltrails_data.eq_def] at hp
    split at hp
    · split at hp
      · exact absurd hp (by simp)
      · injection hp with h1
        exact h1 ▸ Or.inr ⟨_, _, rfl⟩
    · dsimp only at hp
      split at hp
      · exact absurd hp (by simp)
      · rename_i hcoords
        split at hp
        · exact absurd hp (by simp)
        · split at hp
          · exact absurd hp (by simp)
          · injection hp with h1
            rw [← h1]
            exact alltrails_coordinates_inv _ _ _ hcoords

/-- Witness for `coordinates_pair_or_absent` on the manual-entry path. -/
theorem coordinates_pair_or_absent_witness :
    coordsBothOrNone
      (Pin.coordinates (fetch_alltrails_manual ⟨"T", 61, -149, "", ""⟩ "u")) :=
  coordinates_pair_or_absent.2.2 false "u" none (fun _ => Option.none)
    ⟨"T", 61, -149, "", ""⟩ (fetch_alltrails_manual ⟨"T", 61, -149, "", ""⟩ "u") rfl

/-- C1 counterexample: the code applies no magnitude threshold.  A distance
value of 80 (below the claimed threshold of about 100) is converted as meters,
yielding "0.0 mi" rather than the claimed "80.0 mi"; an elevation value of 500
(below the claimed 10,000) is converted as meters, yielding 1640 ft rather
than 500 ft. -/
theorem alltrails_no_unit_threshold :
    distResult "\"length\":80".toList
      = some (some (distanceOfMeters (Dec.toRat ⟨false, 80, 0⟩)))
    ∧ Dec.toRat ⟨false, 80, 0⟩ = 80
    ∧ (distanceOfMeters 80).1 = 0
    ∧ (distanceOfMeters 80).2 = "0.0 mi"
    ∧ elevResult "\"elevationGain\":500".toList
      = some (some (elevationOfMeters (Dec.toRat ⟨false, 500, 0⟩)))
    ∧ Dec.toRat ⟨false, 500, 0⟩ = 500
    ∧ (elevationOfMeters 500).1 = 1640
    ∧ (elevationOfMeters 500).2 = "1640 ft"
    ∧ (0 : ℚ) ≠ 80 ∧ "0.0 mi" ≠ "80.0 mi" ∧ (1640 : ℤ) ≠ 500 := by
  have hr : round ((80 : ℚ) * (621371 / 1000000000) * 10) = 0 := by
    rw [round_eq, Int.floor_eq_iff]
    norm_num
  have hf : (⌊(500 : ℚ) * (328084 / 100000)⌋ : ℤ) = 1640 := by
    rw [Int.floor_eq_iff]
    norm_num
  refine ⟨rfl, by norm_num [Dec.toRat], ?_, ?_, rfl, by norm_num [Dec.toRat],
    ?_, ?_, by norm_num, by decide, by decide⟩
  · show ((round ((80 : ℚ) * (621371 / 1000000000) * 10) : ℤ) : ℚ) / 10 = 0
    rw [hr]
    norm_num
  · show fmtTenths (round ((80 : ℚ) * (621371 / 1000000000) * 10)) ++ " mi"
      = "0.0 mi"
    rw [hr]
    decide
  · exact hf
  · show toString (⌊(500 : ℚ) * (328084 / 100000)⌋ : ℤ) ++ " ft" = "1640 ft"
    rw [hf]
    decide

/-- C1 amended: every numeric value matched by a serviceC distance pattern is
unconditionally treated as meters and converted by × 0.000621371 with the
result rounded to one decimal place, and every matched elevation value is
unconditionally treated as meters and converted by × 3.28084 truncated to an
integer foot value — there is no magnitude threshold and no pass-through. -/
theorem alltrails_units_always_meters (h : List Char) :
    (∀ raw d, searchDistanceRaw h = some raw → pyFloat? raw = some d →
      distResult h = some (some (distanceOfMeters d.toRat)))
    ∧ (∀ raw d, searchElevRaw h = some raw → pyFloat? raw = some d →
      elevResult h = some (some (elevationOfMeters d.toRat))) := by
  constructor
  · intro raw d hs hp
    simp only [distResult, hs, hp]
  · intro raw d hs hp
    simp only [elevResult, hs, hp]

/-- Witness for `alltrails_units_always_meters` on a concrete document. -/
theorem alltrails_units_always_meters_witness :
    distResult "\"length\":8047".toList
      = some (some (distanceOfMeters (Dec.toRat ⟨false, 8047, 0⟩))) :=
  (alltrails_units_always_meters "\"length\":8047".toList).1 "8047".toList
    ⟨false, 8047, 0⟩ (by decide) (by decide)

/-- C6: the category inferencer lower-cases and concatenates name and
description and returns the first category, in caller-supplied order, whose
fixed keyword table contains a keyword occurring in that text (`none` when no
category matches); a category absent from the keyword table is never inferred.
The concrete example "Best Burrito Cafe" infers "Eat/Drink". -/
theorem infer_category_first_match (n d : String) (cats : List String) :
    infer_category n d cats = cats.find? (categoryMatches n d)
    ∧ (∀ c, infer_category n d cats = some c → (lookupKeywords c).isSome)
    ∧ infer_category "Best Burrito Cafe" "" ["Hike", "Eat/Drink"] = some "Eat/Drink" := by
  have hmain : infer_category n d cats = cats.find? (categoryMatches n d) := by
    show inferGo (pyLower (n ++ " " ++ d).toList) cats = _
    rw [inferGo_eq_find]
    rfl
  refine ⟨hmain, ?_, by decide⟩
  intro c hc
  have h1 : cats.find? (categoryMatches n d) = some c := hmain ▸ hc
  have h2 := List.find?_some h1
  cases h : lookupKeywords c with
  | none => exact absurd h2 (by simp only [categoryMatches, h]; decide)
  | some kws => simp [h]

/-- Witness for `infer_category_first_match` at a concrete input. -/
theorem infer_category_first_match_witness :
    (lookupKeywords "Eat/Drink").isSome :=
  (infer_category_first_match "Best Burrito Cafe" "" ["Hike", "Eat/Drink"]).2.1
    "Eat/Drink" (by decide)

/-- C10: the region classifier is total on coordinate pairs and the four cases
partition the plane: "North of Anchorage" iff lat > 61.45, "Anchorage Area" iff
60.7 < lat ≤ 61.45, "Seward Area" iff lat ≤ 60.7 and lng > -150.3, and
"Kenai Peninsula" iff lat ≤ 60.7 and lng ≤ -150.3. -/
theorem determine_region_partition (lat lng : ℚ) :
    (determine_region lat lng = "North of Anchorage" ↔ lat > 6145 / 100)
    ∧ (determine_region lat lng = "Anchorage Area" ↔
        607 / 10 < lat ∧ lat ≤ 6145 / 100)
    ∧ (determine_region lat lng = "Seward Area" ↔
        lat ≤ 607 / 10 ∧ lng > -1503 / 10)
    ∧ (determine_region lat lng = "Kenai Peninsula" ↔
        lat ≤ 607 / 10 ∧ lng ≤ -1503 / 10) := by
  by_cases h1 : lat > 6145 / 100
  · refine ⟨by simp [determine_region, h1], ?_, ?_, ?_⟩
    · simp only [determine_region, if_pos h1]
      constructor
      · intro h; exact absurd h (by decide)
      · rintro ⟨-, h⟩; exact absurd h1 (not_lt.mpr h)
    · simp only [determine_region, if_pos h1]
      constructor
      · intro h; exact absurd h (by decide)
      · rintro ⟨h, -⟩; exact absurd h1 (not_lt.mpr (h.trans (by norm_num)))
    · simp only [determine_region, if_pos h1]
      constructor
      · intro h; exact absurd h (by decide)
      · rintro ⟨h, -⟩; exact absurd h1 (not_lt.mpr (h.trans (by norm_num)))
  · by_cases h2 : lat > 607 / 10
    · refine ⟨?_, ?_, ?_, ?_⟩
      · simp only [determine_region, if_neg h1, if_pos h2]
        constructor
        · intro h; exact absurd h (by decide)
        · intro h; exact absurd h h1
      · simp [determine_region, h1, h2, not_lt.mp h1]
      · simp only [determine_region, if_neg h1, if_pos h2]
        constructor
        · intro h; exact absurd h (by decide)
        · rintro ⟨h, -⟩; exact absurd h2 (not_lt.mpr h)
      · simp only [determine_region, if_neg h1, if_pos h2]
        constructor
        · intro h; exact absurd h (by decide)
        · rintro ⟨h, -⟩; exact absurd h2 (not_lt.mpr h)
    · have hle : lat ≤ 607 / 10 := not_lt.mp h2
      by_cases h3 : lng > -1503 / 10
      · refine ⟨?_, ?_, ?_, ?_⟩
        · simp only [determine_region, if_neg h1, if_neg h2, if_pos h3]
          constructor
          · intro h; exact absurd h (by decide)
          · intro h; exact absurd h h1
        · simp only [determine_region, if_neg h1, if_neg h2, if_pos h3]
          constructor
          · intro h; exact absurd h (by decide)
          · rintro ⟨h, -⟩; exact absurd h h2
        · simp [determine_region, h1, h2, h3, hle]
        · simp only [determine_region, if_neg h1, if_neg h2, if_pos h3]
          constructor
          · intro h; exact absurd h (by decide)
          · rintro ⟨-, h⟩; exact absurd h3 (not_lt.mpr h)
      · refine ⟨?_, ?_, ?_, ?_⟩
        · simp only [determine_region, if_neg h1, if_neg h2, if_neg h3]
          constructor
          · intro h; exact absurd h (by decide)
          · intro h; exact absurd h h1
        · simp only [determine_region, if_neg h1, if_neg h2, if_neg h3]
          constructor
          · intro h; exact absurd h (by decide)
          · rintro ⟨h, -⟩; exact absurd h h2
        · simp only [determine_region, if_neg h1, if_neg h2, if_neg h3]
          constructor
          · intro h; exact absurd h (by decide)
          · rintro ⟨-, h⟩; exact absurd h h3
        · simp [determine_region, h1, h2, h3, hle, not_lt.mp h3]

/-- Witness for `determine_region_partition` at concrete coordinates. -/
theorem determine_region_partition_witness :
    determine_region 62 (-149) = "North of Anchorage" :=
  (determine_region_partition 62 (-149)).1.mpr (by norm_num)

/-- C4: whenever the URL's query string carries an `ll` parameter whose value
starts with a valid `lat,lng` decimal pair, `fetch_apple_maps_data` returns
exactly that pair, regardless of any fetched page body. -/
theorem apple_ll_exact (url : String) (fetched : Option String) (v : String)
    (a b : Dec)
    (h1 : getParam (parse_qsl (queryOf url)) "ll" = some v)
    (h2 : matchLLPair v.toList = some (a, b)) :
    (fetch_apple_maps_data url fetched).coordinates = some [a.toRat, b.toRat] := by
  simp only [fetch_apple_maps_data, apple_coordinates, h1, h2]

/-- Witness for `apple_ll_exact` at a concrete Apple Maps URL. -/
theorem apple_ll_exact_witness :
    (fetch_apple_maps_data "https://maps.apple.com/?ll=61.1796,-149.8353&q=Flattop"
        none).coordinates
      = some [Dec.toRat ⟨false, 611796, 4⟩, Dec.toRat ⟨true, 1498353, 4⟩] :=
  apple_ll_exact "https://maps.apple.com/?ll=61.1796,-149.8353&q=Flattop" none
    "61.1796,-149.8353" ⟨false, 611796, 4⟩ ⟨true, 1498353, 4⟩ (by decide) (by decide)

/-- C8: the `address` parameter only fills `name`/`description` when those are
still unset after the `q` step — a `q`-derived name and description are never
overwritten, and when `q` is absent the address substitutes for both. -/
theorem apple_address_fallback (url : String) (fetched : Option String) :
    (∀ qv, getParam (parse_qsl (queryOf url)) "q" = some qv →
      (fetch_apple_maps_data url fetched).name = some (unquote_plus qv)
      ∧ (fetch_apple_maps_data url fetched).description = some (unquote_plus qv))
    ∧ (getParam (parse_qsl (queryOf url)) "q" = none →
      ∀ av, getParam (parse_qsl (queryOf url)) "address" = some av →
      (fetch_apple_maps_data url fetched).name = some (unquote_plus av)
      ∧ (fetch_apple_maps_data url fetched).description = some (unquote_plus av)) := by
  constructor
  · intro qv hq
    have hqv : qv ≠ "" :=
      parse_qsl_value_ne_empty (queryOf url) "q" qv (getParam_mem _ _ _ hq)
    have hne : unquote_plus qv ≠ "" := unquote_plus_ne_empty qv hqv
    have hfal : pyFalsyS (some (unquote_plus qv)) = false := by
      rw [pyFalsyS]
      cases he : (unquote_plus qv).isEmpty
      · rfl
      · exact absurd ((String.isEmpty_iff _).mp he) hne
    cases haddr : getParam (parse_qsl (queryOf url)) "address" with
    | none =>
      constructor <;> simp [fetch_apple_maps_data, hq, haddr]
    | some av =>
      constructor <;> simp [fetch_apple_maps_data, hq, haddr, hfal]
  · intro hq av haddr
    constructor <;> simp [fetch_apple_maps_data, hq, haddr, pyFalsyS]

/-- C2: serviceA coordinates follow the strict four-step precedence: the
true-place `!3d/!4d` pair wins over everything; only in its absence is the
`@lat,lng` viewport marker tried, then a `q=` query pair, then the body's
center object; when the true-place pair and a distinct viewport pair are both
present, the true-place pair is returned, never the viewport pair. -/
theorem google_coordinate_precedence (url finalUrl html : String) :
    (∀ p : Dec × Dec, reSearch gPlaceAt finalUrl.toList = some p →
      (google_result url finalUrl html).coordinates = some [p.1.toRat, p.2.toRat])
    ∧ (reSearch gPlaceAt finalUrl.toList = none →
        (∀ p : Dec × Dec, reSearch gViewportAt finalUrl.toList = some p →
          (google_result url finalUrl html).coordinates = some [p.1.toRat, p.2.toRat])
        ∧ (reSearch gViewportAt finalUrl.toList = none →
            (∀ p : Dec × Dec, reSearch gQueryAt finalUrl.toList = some p →
              (google_result url finalUrl html).coordinates
                = some [p.1.toRat, p.2.toRat])
            ∧ (reSearch gQueryAt finalUrl.toList = none →
                (∀ p : Dec × Dec, reSearch gCenterAt html.toList = some p →
                  (google_result url finalUrl html).coordinates
                    = some [p.1.toRat, p.2.toRat])
                ∧ (reSearch gCenterAt html.toList = none →
                    (google_result url finalUrl html).coordinates = none))))
    ∧ (∀ p q : Dec × Dec, reSearch gPlaceAt finalUrl.toList = some p →
        reSearch gViewportAt finalUrl.toList = some q →
        (p.1.toRat ≠ q.1.toRat ∨ p.2.toRat ≠ q.2.toRat) →
        (google_result url finalUrl html).coordinates = some [p.1.toRat, p.2.toRat]
        ∧ (google_result url finalUrl html).coordinates
            ≠ some [q.1.toRat, q.2.toRat]) := by
  refine ⟨?_, ?_, ?_⟩
  · intro p hp
    show google_coordinates finalUrl.toList html.toList = _
    rw [google_coordinates.eq_def, hp]
  · intro hp
    refine ⟨?_, ?_⟩
    · intro p hv
      show google_coordinates finalUrl.toList html.toList = _
      rw [google_coordinates.eq_def, hp, hv]
    · intro hv
      refine ⟨?_, ?_⟩
      · intro p hq
        show google_coordinates finalUrl.toList html.toList = _
        rw [google_coordinates.eq_def, hp, hv, hq]
      · intro hq
        refine ⟨?_, ?_⟩
        · intro p hc
          show google_coordinates finalUrl.toList html.toList = _
          rw [google_coordinates.eq_def, hp, hv, hq, hc]
        · intro hc
          show google_coordinates finalUrl.toList html.toList = _
          rw [google_coordinates.eq_def, hp, hv, hq, hc]
  · intro p q hp hv hne
    have h1 : google_coordinates finalUrl.toList html.toList
        = some [p.1.toRat, p.2.toRat] := by
      rw [google_coordinates.eq_def, hp]
    refine ⟨h1, ?_⟩
    show google_coordinates finalUrl.toList html.toList ≠ _
    rw [h1]
    intro hcon
    injection hcon with h2
    injection h2 with ha h3
    injection h3 with hb h4
    rcases hne with hne | hne
    · exact hne ha
    · exact hne hb

/-- Witness for `google_coordinate_precedence`: a resolved URL carrying both a
viewport pair and a distinct true-place pair yields the true-place pair. -/
theorem google_coordinate_precedence_witness :
    (google_result "https://maps.app.goo.gl/x"
        "https://maps.google.com/maps/@61.1,-149.8,15z/!3d61.2181!4d-149.9003"
        "<html></html>").coordinates
      = some [Dec.toRat ⟨false, 612181, 4⟩, Dec.toRat ⟨true, 1499003, 4⟩] :=
  (google_coordinate_precedence "https://maps.app.goo.gl/x"
      "https://maps.google.com/maps/@61.1,-149.8,15z/!3d61.2181!4d-149.9003"
      "<html></html>").1 (⟨false, 612181, 4⟩, ⟨true, 1499003, 4⟩) (by decide)

/-- C7: a network failure during the serviceA fetch aborts the extractor with
no data (`return None` in the source), and the caller treats this as fatal for
the URL (`sys.exit(1)`, modelled as the error outcome). -/
theorem google_fetch_failure_fatal (url : String) :
    fetch_google_maps_data url none = none
    ∧ process_google url none = Except.error "Failed to fetch data from URL" :=
  ⟨rfl, rfl⟩

/-- Witness for `apple_address_fallback` at a concrete URL with both `q` and
`address` parameters present. -/
theorem apple_address_fallback_witness :
    (fetch_apple_maps_data "https://maps.apple.com/?q=Moose+Cafe&address=1+Main+St"
        none).name = some "Moose Cafe"
    ∧ (fetch_apple_maps_data "https://maps.apple.com/?q=Moose+Cafe&address=1+Main+St"
        none).description = some "Moose Cafe" :=
  (apple_address_fallback "https://maps.apple.com/?q=Moose+Cafe&address=1+Main+St"
      none).1 "Moose Cafe" (by decide)

end SleepyAK
